import Mathlib

/-!
Verification of the lifecycle orchestrator of the OpenTelemetry Collector
(`service/application.go`): the collector state machine, startup/shutdown
sequencing, configuration hot-reload, and error aggregation.

The Go code is embedded shallowly and sequentially.  External collaborators
(telemetry subsystem, configuration provider, service runtime) are modelled by
an oracle `Env` giving the outcome of each external call; channel operations
and side-effecting steps are recorded in an event trace.  `execute` models a
run in which a shutdown trigger eventually fires (the `select` in
`runAndWaitForShutdownEvent` completes); runs where no trigger ever fires
block forever in the source and produce no further observable events.
-/

namespace OtelCollector

/-- `State` defines the Collector's state (`type State int`, values by `iota`). -/
inductive State where
  | Starting
  | Running
  | Closing
  | Closed
deriving DecidableEq, Repr

/-- The integer value of each `State` constant (`iota`: 0, 1, 2, 3). -/
def State.toNat : State → Nat
  | .Starting => 0
  | .Running  => 1
  | .Closing  => 2
  | .Closed   => 3

/-- The list of all distinct `State` values. -/
def State.all : List State := [.Starting, .Running, .Closing, .Closed]

/-- Go `error` values as they occur in this code: the
`configsource.ErrSessionClosed` sentinel, plain errors, wrapping via
`fmt.Errorf("...: %w", err)`, and the aggregate built by error combination. -/
inductive GoErr where
  | sessionClosed : GoErr
  | simple : String → GoErr
  | wrap : String → GoErr → GoErr
  | combined : List GoErr → GoErr

/-- `errors.Is(err, configsource.ErrSessionClosed)`: true iff `err` is the
sentinel or wraps it (at any depth). -/
def isSessionClosedErr : GoErr → Bool
  | .sessionClosed => true
  | .wrap _ inner => isSessionClosedErr inner
  | _ => false

/-- Modelled from the spec: `consumererror.Combine` (its source is not under
`src/`) combines a list of collected errors into a single aggregate error;
an empty list yields success (`nil`). -/
def combine (errs : List GoErr) : Option GoErr :=
  if errs.isEmpty then none else some (.combined errs)

/-- State of the `stopTestChan` stop signal: not yet allocated (`nil`),
allocated and open, or closed. -/
inductive StopChanState where
  | nilChan
  | openChan
  | closedChan
deriving DecidableEq, Repr

/-- The configuration provider reference installed by `New`: either the
caller-supplied one or the default (`parserprovider.Default()`). -/
inductive ProviderRef where
  | defaultProvider
  | custom
deriving DecidableEq, Repr

/-- Observable events of a run: sends on / close of the state channel, the
external calls made, and mutations of the `service` field.  Service instances
are identified by a `Nat` id standing for the Go pointer identity. -/
inductive Ev where
  | sendState (s : State)
  | closeStateChan
  | telemetryInit
  | providerGet
  | configLoad
  | configValidate
  | newServiceCall
  | serviceStart (id : Nat)
  | spawnWatch
  | ballastRelease
  | providerClose
  | setService (v : Option Nat)
  | svcShutdown (id : Nat)
  | telemetryShutdown
deriving DecidableEq, Repr

/-- Whether an event is an operation on the state channel. -/
def Ev.isChanEv : Ev → Bool
  | .sendState _ => true
  | .closeStateChan => true
  | _ => false

/-- The sub-trace of state-channel operations, in order. -/
def chanTrace (t : List Ev) : List Ev := t.filter Ev.isChanEv

/-- Oracle for the outcomes of all external calls a run can make.  `none`
means the call returns `nil` (success); `some e` means it returns error `e`.
`closeable` / `watchable` are the provider's optional capabilities. -/
structure Env where
  ballastSizeMiB : Nat
  telemetryInitErr : Option GoErr
  providerGetErr : Option GoErr
  configLoadErr : Option GoErr
  configValidateErr : Option GoErr
  newServiceErr : Option GoErr
  serviceStartErr : Option GoErr
  watchable : Bool
  closeable : Bool
  providerCloseErr : Option GoErr
  serviceShutdownErr : Option GoErr
  telemetryShutdownErr : Option GoErr

/-- The orchestrator state relevant to the claims: the `service` field
(`none` = Go `nil`), a counter supplying fresh service-instance identities,
the stop-signal channel state, and the fields installed by `New`. -/
structure Collector where
  service : Option Nat
  nextId : Nat
  stopChan : StopChanState
  stateChanCapacity : Nat
  provider : ProviderRef

/-- Parameters of `New` as far as the claims observe them: the outcome of
`configcheck.ValidateConfigFromFactories(params.Factories)` and whether
`params.ParserProvider` is non-nil. -/
structure Parameters where
  factoriesValidateErr : Option GoErr
  hasParserProvider : Bool

/-- `New`: validate the factories (returning `(nil, err)` on failure before
anything else is built), then construct the Collector with a state channel of
capacity `Closed+1` and the default parser provider when none was supplied. -/
def new (p : Parameters) : Except GoErr Collector :=
  match p.factoriesValidateErr with
  | some e => .error e
  | none =>
      .ok { service := none
            nextId := 0
            stopChan := .nilChan
            stateChanCapacity := State.Closed.toNat + 1
            provider := if p.hasParserProvider then .custom else .defaultProvider }

/-- `createMemoryBallast`: for a configured size of 0 MiB return `(nil, 0)`;
for a positive size compute `uint64(ballastSizeMiB) * 1024 * 1024` — wrapping
uint64 arithmetic, modelled as `% 2 ^ 64` — allocate a zeroed buffer of that
many bytes and return it with that byte count. -/
def createMemoryBallast (ballastSizeMiB : Nat) : Option (List Nat) × Nat :=
  if ballastSizeMiB > 0 then
    let ballastSizeBytes := ballastSizeMiB * 1024 * 1024 % 2 ^ 64
    (some (List.replicate ballastSizeBytes 0), ballastSizeBytes)
  else
    (none, 0)

/-- `setupTelemetry`: initialize the telemetry subsystem, wrapping a failure
as `"failed to initialize telemetry: %w"`. -/
def setupTelemetry (env : Env) : List Ev × Option GoErr :=
  match env.telemetryInitErr with
  | some e => ([.telemetryInit], some (.wrap "failed to initialize telemetry" e))
  | none => ([.telemetryInit], none)

/-- `setupConfigurationComponents`: provider `Get`, `configloader.Load`,
`cfg.Validate`, `newService`, `service.Start`; each failure returns
immediately (the first three wrapped, the last two returned as-is).  On
success record the new instance in `col.service` and, if the provider is
watchable, spawn the watch goroutine. -/
def setupConfigurationComponents (env : Env) (col : Collector) :
    Collector × List Ev × Option GoErr :=
  match env.providerGetErr with
  | some e => (col, [.providerGet], some (.wrap "cannot load the configuration parser" e))
  | none =>
  match env.configLoadErr with
  | some e => (col, [.providerGet, .configLoad], some (.wrap "cannot load configuration" e))
  | none =>
  match env.configValidateErr with
  | some e => (col, [.providerGet, .configLoad, .configValidate],
               some (.wrap "invalid configuration" e))
  | none =>
  match env.newServiceErr with
  | some e => (col, [.providerGet, .configLoad, .configValidate, .newServiceCall], some e)
  | none =>
    let id := col.nextId
    match env.serviceStartErr with
    | some e => ({ col with nextId := id + 1 },
                 [.providerGet, .configLoad, .configValidate, .newServiceCall,
                  .serviceStart id], some e)
    | none =>
        ({ col with service := some id, nextId := id + 1 },
         [.providerGet, .configLoad, .configValidate, .newServiceCall, .serviceStart id,
          .setService (some id)] ++ (if env.watchable then [.spawnWatch] else []),
         none)

/-- `runAndWaitForShutdownEvent`, for a run in which a shutdown trigger fires:
allocate the stop channel, send `Running`, block in the `select` until the
trigger, then send `Closing`. -/
def runAndWaitForShutdownEvent (col : Collector) : Collector × List Ev :=
  ({ col with stopChan := .openChan }, [.sendState .Running, .sendState .Closing])

/-- `execute`: send `Starting`, allocate the ballast, set up telemetry and
configuration components (returning immediately on a setup failure), run
until a shutdown trigger fires, then run the failure-tolerant shutdown
sequence (provider `Close` if closeable, service `Shutdown` if non-nil,
telemetry shutdown), send `Closed`, close the state channel and return the
combination of the collected errors. -/
def execute (env : Env) (col : Collector) : Collector × List Ev × Option GoErr :=
  let t0 : List Ev := [.sendState .Starting]
  let _ballast := createMemoryBallast env.ballastSizeMiB
  match setupTelemetry env with
  | (tTel, some e) => (col, t0 ++ tTel, some e)
  | (tTel, none) =>
  match setupConfigurationComponents env col with
  | (col1, tSetup, some e) => (col1, t0 ++ tTel ++ tSetup, some e)
  | (col1, tSetup, none) =>
    let runRes := runAndWaitForShutdownEvent col1
    let col2 := runRes.1
    let tRun := runRes.2
    let closeRes : List GoErr × List Ev :=
      if env.closeable then
        match env.providerCloseErr with
        | some e => ([.wrap "failed to close config" e], [.providerClose])
        | none => ([], [.providerClose])
      else ([], [])
    let svcRes : List GoErr × List Ev :=
      match col2.service with
      | some id =>
        match env.serviceShutdownErr with
        | some e => ([.wrap "failed to shutdown service" e], [.svcShutdown id])
        | none => ([], [.svcShutdown id])
      | none => ([], [])
    let telRes : List GoErr × List Ev :=
      match env.telemetryShutdownErr with
      | some e => ([.wrap "failed to shutdown application telemetry" e], [.telemetryShutdown])
      | none => ([], [.telemetryShutdown])
    let errs := closeRes.1 ++ svcRes.1 ++ telRes.1
    (col2,
     t0 ++ tTel ++ tSetup ++ tRun ++ [.ballastRelease] ++ closeRes.2 ++ svcRes.2 ++ telRes.2
        ++ [.sendState .Closed, .closeStateChan],
     combine errs)

/-- `reloadService`: if the provider is closeable, close it (failure aborts
the reload); then, if a service instance is active, clear the reference and
shut the retiring instance down (failure aborts the reload); then re-run
`setupConfigurationComponents`, wrapping its failure. -/
def reloadService (env : Env) (col : Collector) : Collector × List Ev × Option GoErr :=
  let step1 : Option (List Ev × GoErr) :=
    if env.closeable then
      match env.providerCloseErr with
      | some e => some ([.providerClose], .wrap "failed close current config provider" e)
      | none => none
    else none
  match step1 with
  | some (t, e) => (col, t, some e)
  | none =>
    let tClose : List Ev := if env.closeable then [.providerClose] else []
    match col.service with
    | some id =>
      let col1 := { col with service := none }
      match env.serviceShutdownErr with
      | some e => (col1, tClose ++ [.setService none, .svcShutdown id],
                   some (.wrap "failed to shutdown the retiring config" e))
      | none =>
        match setupConfigurationComponents env col1 with
        | (col2, t2, some e) =>
            (col2, tClose ++ [.setService none, .svcShutdown id] ++ t2,
             some (.wrap "failed to setup configuration components" e))
        | (col2, t2, none) =>
            (col2, tClose ++ [.setService none, .svcShutdown id] ++ t2, none)
    | none =>
      match setupConfigurationComponents env col with
      | (col2, t2, some e) =>
          (col2, tClose ++ t2, some (.wrap "failed to setup configuration components" e))
      | (col2, t2, none) => (col2, tClose ++ t2, none)

/-- What the watch goroutine does with the value returned by
`WatchForUpdate`: exit silently, or trigger one reload. -/
inductive WatchAction where
  | exitTask
  | reload
deriving DecidableEq, Repr

/-- The dispatch of the watch goroutine spawned by
`setupConfigurationComponents`: if `WatchForUpdate`'s result satisfies
`errors.Is(err, configsource.ErrSessionClosed)` the goroutine returns;
otherwise (any other error, or `nil`) it calls `reloadService` once. -/
def watchTask (res : Option GoErr) : WatchAction :=
  match res with
  | some e => if isSessionClosedErr e then .exitTask else .reload
  | none => .reload

/-- Result of one call to `Collector.Shutdown`: the collector afterwards,
whether `close` panicked (and was recovered by the deferred handler), and
whether the call returned normally. -/
structure ShutdownCallResult where
  col : Collector
  panicked : Bool
  returnedNormally : Bool

/-- `Collector.Shutdown`: `close(col.stopTestChan)` under a deferred
`recover()`.  Closing an open channel closes it; closing a closed or `nil`
channel panics, and the recover makes the call return normally with the
collector unchanged. -/
def collectorShutdown (col : Collector) : ShutdownCallResult :=
  match col.stopChan with
  | .openChan =>
      { col := { col with stopChan := .closedChan }, panicked := false, returnedNormally := true }
  | .closedChan => { col := col, panicked := true, returnedNormally := true }
  | .nilChan => { col := col, panicked := true, returnedNormally := true }

/-- The error `execute` is expected to return when a setup step fails, per
the documented cascade of setup steps (spec-side reference definition). -/
def firstSetupFailure (env : Env) : Option GoErr :=
  match env.telemetryInitErr with
  | some e => some (.wrap "failed to initialize telemetry" e)
  | none =>
  match env.providerGetErr with
  | some e => some (.wrap "cannot load the configuration parser" e)
  | none =>
  match env.configLoadErr with
  | some e => some (.wrap "cannot load configuration" e)
  | none =>
  match env.configValidateErr with
  | some e => some (.wrap "invalid configuration" e)
  | none =>
  match env.newServiceErr with
  | some e => some e
  | none =>
  match env.serviceStartErr with
  | some e => some e
  | none => none

/-- The list of errors the shutdown sequence is expected to collect, in step
order (spec-side reference definition). -/
def expectedShutdownErrs (env : Env) : List GoErr :=
  (if env.closeable then
     match env.providerCloseErr with
     | some e => [.wrap "failed to close config" e]
     | none => []
   else []) ++
  (match env.serviceShutdownErr with
   | some e => [GoErr.wrap "failed to shutdown service" e]
   | none => []) ++
  (match env.telemetryShutdownErr with
   | some e => [GoErr.wrap "failed to shutdown application telemetry" e]
   | none => [])

/-- Whether an event is one of the three shutdown-sequence steps. -/
def Ev.isShutdownStep : Ev → Bool
  | .providerClose => true
  | .svcShutdown _ => true
  | .telemetryShutdown => true
  | _ => false

/-- A concrete collector as produced by `new`, used to instantiate theorems. -/
def sampleCol : Collector :=
  { service := none, nextId := 0, stopChan := .nilChan, stateChanCapacity := 4,
    provider := .defaultProvider }

/-- A concrete collector with an active service instance (id 7). -/
def sampleColWithSvc : Collector := { sampleCol with service := some 7 }

/-- A concrete environment in which every external call succeeds. -/
def envAllOk : Env :=
  { ballastSizeMiB := 0, telemetryInitErr := none, providerGetErr := none,
    configLoadErr := none, configValidateErr := none, newServiceErr := none,
    serviceStartErr := none, watchable := false, closeable := false,
    providerCloseErr := none, serviceShutdownErr := none, telemetryShutdownErr := none }

/-- Counterexample to C7 as stated: at a configured size of 2^44 MiB the
uint64 byte count `uint64(2^44) * 1024 * 1024` wraps around to 0, so the
returned byte count is 0 — not 2^44 * 1,048,576 — and the buffer is empty. -/
theorem createMemoryBallast_wrap_counterexample :
    0 < 2 ^ 44 ∧
    createMemoryBallast (2 ^ 44) = (some [], 0) ∧
    (createMemoryBallast (2 ^ 44)).2 ≠ 2 ^ 44 * 1048576 := by
  refine ⟨by norm_num, by decide, ?_⟩
  have h : (createMemoryBallast (2 ^ 44)).2 = 0 := by decide
  rw [h]
  norm_num

/-- C7 (amended): `createMemoryBallast` returns no buffer and a size of 0
bytes for a configured size of 0 MiB, and for every N > 0 MiB returns the
byte count N * 1,048,576 reduced modulo 2^64 (uint64 wraparound) together
with a buffer of exactly that many bytes. -/
theorem createMemoryBallast_spec (n : Nat) :
    (n = 0 → createMemoryBallast n = (none, 0)) ∧
    (0 < n → (createMemoryBallast n).2 = n * 1048576 % 2 ^ 64 ∧
      ∃ buf, (createMemoryBallast n).1 = some buf ∧
        buf.length = n * 1048576 % 2 ^ 64) := by
  constructor
  · rintro rfl
    rfl
  · intro hn
    have h : n * 1024 * 1024 = n * 1048576 := by ring
    simp only [createMemoryBallast, if_pos hn]
    refine ⟨by rw [h], List.replicate (n * 1024 * 1024 % 2 ^ 64) 0, rfl, ?_⟩
    simp only [List.length_replicate]
    rw [h]

/-- Witness for C7 at sizes 0 and 1 (1 MiB is far below the wrap bound, so
the byte count is exactly 1,048,576). -/
theorem createMemoryBallast_spec_witness :
    createMemoryBallast 0 = (none, 0) ∧
    (createMemoryBallast 1).2 = 1048576 ∧
    ∃ buf, (createMemoryBallast 1).1 = some buf ∧ buf.length = 1048576 := by
  have h0 := (createMemoryBallast_spec 0).1 rfl
  have h1 := (createMemoryBallast_spec 1).2 (by decide)
  have hm : 1 * 1048576 % 2 ^ 64 = 1048576 := by norm_num
  refine ⟨h0, ?_, ?_⟩
  · rw [h1.1, hm]
  · obtain ⟨buf, hb, hl⟩ := h1.2
    exact ⟨buf, hb, by rw [hl, hm]⟩

/-- C9: once the stop signal is already closed, a further call to
`Collector.Shutdown` panics on the second `close`, the panic is recovered, the
call returns normally and the collector is left unchanged. -/
theorem collectorShutdown_idempotent (col : Collector) (h : col.stopChan = .closedChan) :
    collectorShutdown col = { col := col, panicked := true, returnedNormally := true } := by
  obtain ⟨svc, nid, sc, cap, prov⟩ := col
  dsimp only at h
  subst h
  rfl

/-- Witness for C9 on a concrete already-closed collector. -/
theorem collectorShutdown_idempotent_witness :
    collectorShutdown { sampleCol with stopChan := .closedChan } =
      { col := { sampleCol with stopChan := .closedChan },
        panicked := true, returnedNormally := true } :=
  collectorShutdown_idempotent _ rfl

/-- C6: the watch goroutine exits without reloading exactly when
`WatchForUpdate`'s result is (or wraps) the session-closed sentinel, and
reloads exactly once (action `reload`) for every other result, including a
`nil` result and any other error. -/
theorem watchTask_dispatch (res : Option GoErr) :
    (watchTask res = .exitTask ↔ ∃ e, res = some e ∧ isSessionClosedErr e = true) ∧
    (watchTask res = .reload ↔ ∀ e, res = some e → isSessionClosedErr e = false) := by
  cases res with
  | none => exact ⟨by simp [watchTask], by simp [watchTask]⟩
  | some e =>
    cases h : isSessionClosedErr e <;>
      simp [watchTask, h]

/-- C10: `New` returns the validation error (and no collector) when factory
validation fails, before any other initialization; on success it returns a
collector whose provider is installed (the default one when none was given)
and whose state channel capacity equals the number of distinct `State`
values. -/
theorem new_spec (p : Parameters) :
    (∀ e, p.factoriesValidateErr = some e → new p = .error e) ∧
    (p.factoriesValidateErr = none →
      ∃ col, new p = .ok col ∧
        col.stateChanCapacity = State.all.length ∧
        State.all.Nodup ∧ (∀ s : State, s ∈ State.all) ∧
        col.service = none ∧
        (p.hasParserProvider = false → col.provider = .defaultProvider)) := by
  obtain ⟨fv, hp⟩ := p
  constructor
  · intro e he
    dsimp only at he
    subst he
    rfl
  · intro hf
    dsimp only at hf
    subst hf
    refine ⟨_, rfl, rfl, by decide, fun s => by cases s <;> decide, rfl, ?_⟩
    intro hhp
    dsimp only at hhp
    subst hhp
    rfl

/-- Witness for C10 on a failing and a succeeding parameter set. -/
theorem new_spec_witness :
    new { factoriesValidateErr := some (.simple "bad"), hasParserProvider := false } =
        .error (.simple "bad") ∧
    ∃ col,
      new { factoriesValidateErr := none, hasParserProvider := false } = .ok col ∧
        col.stateChanCapacity = State.all.length ∧ col.provider = .defaultProvider := by
  constructor
  · exact (new_spec _).1 _ rfl
  · obtain ⟨col, h1, h2, -, -, -, h6⟩ :=
      (new_spec { factoriesValidateErr := none, hasParserProvider := false }).2 rfl
    exact ⟨col, h1, h2, h6 rfl⟩

/-- A concrete environment whose only failure is the service `Shutdown`. -/
def envSvcShutdownFail : Env :=
  { envAllOk with serviceShutdownErr := some (.simple "svc stuck") }

/-- C5: if the provider is closeable and its `Close` fails, `reloadService`
returns immediately with the wrapped close error, the collector (in
particular the running service) is unchanged, and the only step executed is
the provider close: the trace is exactly `[providerClose]`. -/
theorem reloadService_close_failure (env : Env) (col : Collector) (e : GoErr)
    (hc : env.closeable = true) (he : env.providerCloseErr = some e) :
    reloadService env col =
      (col, [.providerClose], some (.wrap "failed close current config provider" e)) := by
  obtain ⟨bal, te, pg, cl, cv, ns, ss, w, c, pce, sse, tse⟩ := env
  dsimp only at hc he
  subst hc he
  rfl

/-- Witness for C5 on a concrete closeable environment whose close fails. -/
theorem reloadService_close_failure_witness :
    reloadService { envAllOk with closeable := true, providerCloseErr := some (.simple "io") }
        sampleColWithSvc =
      (sampleColWithSvc, [.providerClose],
       some (.wrap "failed close current config provider" (.simple "io"))) :=
  reloadService_close_failure _ _ _ rfl rfl

theorem reloadService_trace_aux (env : Env) (col : Collector) (id : Nat)
    (hsvc : col.service = some id)
    (hclose : env.closeable = true → env.providerCloseErr = none) :
    ∃ t₂, (reloadService env col).2.1 =
      (if env.closeable then [Ev.providerClose] else []) ++
        ([.setService none, .svcShutdown id] ++ t₂) := by
  obtain ⟨bal, te, pg, cl, cv, ns, ss, w, c, pce, sse, tse⟩ := env
  obtain ⟨svc, nid, sc, cap, prov⟩ := col
  dsimp only at hsvc hclose ⊢
  subst hsvc
  cases c with
  | true =>
    have hpce : pce = none := hclose rfl
    subst hpce
    cases sse <;> cases pg <;> cases cl <;> cases cv <;> cases ns <;> cases ss <;> cases w <;>
      exact ⟨_, rfl⟩
  | false =>
    cases sse <;> cases pg <;> cases cl <;> cases cv <;> cases ns <;> cases ss <;> cases w <;>
      exact ⟨_, rfl⟩

theorem reloadService_record_aux (env : Env) (col : Collector) (id : Nat)
    (hsvc : col.service = some id)
    (hclose : env.closeable = true → env.providerCloseErr = none) :
    ∀ j, ((reloadService env col).1).service = some j →
      env.serviceShutdownErr = none ∧ env.serviceStartErr = none := by
  obtain ⟨bal, te, pg, cl, cv, ns, ss, w, c, pce, sse, tse⟩ := env
  obtain ⟨svc, nid, sc, cap, prov⟩ := col
  dsimp only at hsvc hclose ⊢
  subst hsvc
  cases c with
  | true =>
    have hpce : pce = none := hclose rfl
    subst hpce
    cases sse <;> cases pg <;> cases cl <;> cases cv <;> cases ns <;> cases ss <;> cases w <;>
      simp [reloadService, setupConfigurationComponents]
  | false =>
    cases sse <;> cases pg <;> cases cl <;> cases cv <;> cases ns <;> cases ss <;> cases w <;>
      simp [reloadService, setupConfigurationComponents]

theorem reloadService_shutdown_failure_aux (env : Env) (col : Collector) (id : Nat)
    (hsvc : col.service = some id)
    (hclose : env.closeable = true → env.providerCloseErr = none)
    (e : GoErr) (hsse : env.serviceShutdownErr = some e) :
    ((reloadService env col).1).service = none ∧
    (reloadService env col).2.2 = some (.wrap "failed to shutdown the retiring config" e) := by
  obtain ⟨bal, te, pg, cl, cv, ns, ss, w, c, pce, sse, tse⟩ := env
  obtain ⟨svc, nid, sc, cap, prov⟩ := col
  dsimp only at hsvc hclose hsse ⊢
  subst hsvc hsse
  cases c with
  | true =>
    have hpce : pce = none := hclose rfl
    subst hpce
    exact ⟨rfl, rfl⟩
  | false => exact ⟨rfl, rfl⟩

/-- C4: in `reloadService`, when a service instance is active at the retire
step (the provider-close step did not abort), the reference is cleared to
`nil` strictly before `Shutdown` is invoked on the retiring instance (the
trace has `setService none` immediately before `svcShutdown id`); a new
instance is recorded only if the retiring shutdown and the new `Start` both
succeeded; and if the retiring shutdown fails, `reloadService` returns the
wrapped error with the service reference left `nil`. -/
theorem reloadService_retire (env : Env) (col : Collector) (id : Nat)
    (hsvc : col.service = some id)
    (hclose : env.closeable = true → env.providerCloseErr = none) :
    (∃ t₂, (reloadService env col).2.1 =
       (if env.closeable then [Ev.providerClose] else []) ++
         ([.setService none, .svcShutdown id] ++ t₂)) ∧
    (∀ j, ((reloadService env col).1).service = some j →
       env.serviceShutdownErr = none ∧ env.serviceStartErr = none) ∧
    (∀ e, env.serviceShutdownErr = some e →
       ((reloadService env col).1).service = none ∧
       (reloadService env col).2.2 =
         some (.wrap "failed to shutdown the retiring config" e)) :=
  ⟨reloadService_trace_aux env col id hsvc hclose,
   reloadService_record_aux env col id hsvc hclose,
   fun e he => reloadService_shutdown_failure_aux env col id hsvc hclose e he⟩

/-- Witness for C4 on a concrete run whose retiring shutdown fails. -/
theorem reloadService_retire_witness :
    (∃ t₂, (reloadService envSvcShutdownFail sampleColWithSvc).2.1 =
       (if envSvcShutdownFail.closeable then [Ev.providerClose] else []) ++
         ([.setService none, .svcShutdown 7] ++ t₂)) ∧
    ((reloadService envSvcShutdownFail sampleColWithSvc).1).service = none ∧
    (reloadService envSvcShutdownFail sampleColWithSvc).2.2 =
      some (.wrap "failed to shutdown the retiring config" (.simple "svc stuck")) := by
  obtain ⟨h1, -, h3⟩ :=
    reloadService_retire envSvcShutdownFail sampleColWithSvc 7 rfl (fun h => nomatch h)
  exact ⟨h1, (h3 _ rfl).1, (h3 _ rfl).2⟩

/-- C1: for any run of `execute` whose setup fully succeeds (and in which a
shutdown trigger fires, which is built into the model of
`runAndWaitForShutdownEvent`), the operations on the state channel are
exactly the sends of `Starting`, `Running`, `Closing`, `Closed` in that
order, each once, followed by the single close of the channel. -/
theorem execute_state_stream (env : Env) (col : Collector)
    (h1 : env.telemetryInitErr = none) (h2 : env.providerGetErr = none)
    (h3 : env.configLoadErr = none) (h4 : env.configValidateErr = none)
    (h5 : env.newServiceErr = none) (h6 : env.serviceStartErr = none) :
    chanTrace (execute env col).2.1 =
      [.sendState .Starting, .sendState .Running, .sendState .Closing,
       .sendState .Closed, .closeStateChan] := by
  obtain ⟨bal, te, pg, cl, cv, ns, ss, w, c, pce, sse, tse⟩ := env
  obtain ⟨svc, nid, sc, cap, prov⟩ := col
  dsimp only at h1 h2 h3 h4 h5 h6
  subst h1 h2 h3 h4 h5 h6
  cases w <;> cases c <;> cases pce <;> cases sse <;> cases tse <;> rfl

/-- Witness for C1 on a concrete all-success run. -/
theorem execute_state_stream_witness :
    chanTrace (execute envAllOk sampleCol).2.1 =
      [.sendState .Starting, .sendState .Running, .sendState .Closing,
       .sendState .Closed, .closeStateChan] :=
  execute_state_stream envAllOk sampleCol rfl rfl rfl rfl rfl rfl

/-- C3: if a setup step fails before `Running` is published, `execute`
returns exactly that step's error, the only state-channel operation of the
run is the send of `Starting` (so neither `Closing` nor `Closed` is sent and
the channel is not closed). -/
theorem execute_setup_failure (env : Env) (col : Collector) (e : GoErr)
    (h : firstSetupFailure env = some e) :
    (execute env col).2.2 = some e ∧
    chanTrace (execute env col).2.1 = [.sendState .Starting] := by
  obtain ⟨bal, te, pg, cl, cv, ns, ss, w, c, pce, sse, tse⟩ := env
  obtain ⟨svc, nid, sc, cap, prov⟩ := col
  cases te <;> cases pg <;> cases cl <;> cases cv <;> cases ns <;> cases ss <;>
    simp only [firstSetupFailure] at h <;>
    first
      | (rw [Option.some_inj] at h
         subst h
         exact ⟨rfl, rfl⟩)
      | simp at h

/-- Witness for C3 on a concrete run whose configuration validation fails. -/
theorem execute_setup_failure_witness :
    (execute { envAllOk with configValidateErr := some (.simple "bad cfg") } sampleCol).2.2 =
        some (.wrap "invalid configuration" (.simple "bad cfg")) ∧
    chanTrace (execute { envAllOk with configValidateErr := some (.simple "bad cfg") }
        sampleCol).2.1 = [.sendState .Starting] :=
  execute_setup_failure _ sampleCol _ rfl

/-- A concrete environment in which both the provider close and the service
shutdown fail during teardown. -/
def envBothFail : Env :=
  { envAllOk with
    closeable := true
    providerCloseErr := some (.simple "close fail")
    serviceShutdownErr := some (.simple "svc fail") }

/-- C2: after a successful setup and a shutdown trigger, every shutdown step
runs regardless of earlier failures — the shutdown-step sub-trace is exactly
provider close (iff closeable), then the service shutdown, then the telemetry
shutdown; the returned value is the combination of the wrapped errors of the
failing steps in that order (`none` when no step fails); in particular when
both the provider close and the service shutdown fail, the aggregate reports
both. -/
theorem execute_shutdown_sequence (env : Env) (col : Collector)
    (h1 : env.telemetryInitErr = none) (h2 : env.providerGetErr = none)
    (h3 : env.configLoadErr = none) (h4 : env.configValidateErr = none)
    (h5 : env.newServiceErr = none) (h6 : env.serviceStartErr = none) :
    ((execute env col).2.1.filter Ev.isShutdownStep =
       (if env.closeable then [Ev.providerClose] else []) ++
         [.svcShutdown col.nextId, .telemetryShutdown]) ∧
    (execute env col).2.2 = combine (expectedShutdownErrs env) ∧
    (expectedShutdownErrs env = [] → (execute env col).2.2 = none) ∧
    (∀ e1 e2, env.closeable = true → env.providerCloseErr = some e1 →
       env.serviceShutdownErr = some e2 →
       ∃ l, (execute env col).2.2 = some (.combined l) ∧
         GoErr.wrap "failed to close config" e1 ∈ l ∧
         GoErr.wrap "failed to shutdown service" e2 ∈ l) := by
  obtain ⟨bal, te, pg, cl, cv, ns, ss, w, c, pce, sse, tse⟩ := env
  obtain ⟨svc, nid, sc, cap, prov⟩ := col
  dsimp only at h1 h2 h3 h4 h5 h6
  subst h1 h2 h3 h4 h5 h6
  cases w <;> cases c <;> cases pce <;> cases sse <;> cases tse <;>
    refine ⟨rfl, rfl, ?_, ?_⟩ <;>
    simp [execute, setupTelemetry, setupConfigurationComponents, runAndWaitForShutdownEvent,
      combine, expectedShutdownErrs]

/-- Witness for C2 on a concrete run where both the provider close and the
service shutdown fail. -/
theorem execute_shutdown_sequence_witness :
    ((execute envBothFail sampleCol).2.1.filter Ev.isShutdownStep =
       [Ev.providerClose, .svcShutdown 0, .telemetryShutdown]) ∧
    ∃ l, (execute envBothFail sampleCol).2.2 = some (.combined l) ∧
      GoErr.wrap "failed to close config" (.simple "close fail") ∈ l ∧
      GoErr.wrap "failed to shutdown service" (.simple "svc fail") ∈ l := by
  obtain ⟨hA, -, -, hD⟩ :=
    execute_shutdown_sequence envBothFail sampleCol rfl rfl rfl rfl rfl rfl
  exact ⟨hA, hD _ _ rfl rfl rfl⟩

/-- C8: when setup fails after telemetry initialization succeeded, `execute`
returns an error and performs no teardown: the telemetry shutdown, the
provider close, the ballast release and any service shutdown never appear in
the trace, and the `service` field is unchanged. -/
theorem execute_setup_failure_frame (env : Env) (col : Collector)
    (h1 : env.telemetryInitErr = none)
    (h : ¬ (env.providerGetErr = none ∧ env.configLoadErr = none ∧
            env.configValidateErr = none ∧ env.newServiceErr = none ∧
            env.serviceStartErr = none)) :
    (∃ e, (execute env col).2.2 = some e) ∧
    ((execute env col).1).service = col.service ∧
    Ev.telemetryShutdown ∉ (execute env col).2.1 ∧
    Ev.providerClose ∉ (execute env col).2.1 ∧
    Ev.ballastRelease ∉ (execute env col).2.1 ∧
    ∀ id, Ev.svcShutdown id ∉ (execute env col).2.1 := by
  obtain ⟨bal, te, pg, cl, cv, ns, ss, w, c, pce, sse, tse⟩ := env
  obtain ⟨svc, nid, sc, cap, prov⟩ := col
  dsimp only at h1 h
  subst h1
  cases pg <;> cases cl <;> cases cv <;> cases ns <;> cases ss <;>
    first
      | (refine ⟨⟨_, rfl⟩, rfl, ?_, ?_, ?_, ?_⟩ <;>
           simp [execute, setupTelemetry, setupConfigurationComponents,
             runAndWaitForShutdownEvent])
      | exact absurd ⟨rfl, rfl, rfl, rfl, rfl⟩ h

/-- Witness for C8 on a concrete run whose service `Start` fails. -/
theorem execute_setup_failure_frame_witness :
    (∃ e, (execute { envAllOk with serviceStartErr := some (.simple "start fail") }
        sampleCol).2.2 = some e) ∧
    ((execute { envAllOk with serviceStartErr := some (.simple "start fail") }
        sampleCol).1).service = sampleCol.service ∧
    Ev.telemetryShutdown ∉
      (execute { envAllOk with serviceStartErr := some (.simple "start fail") }
        sampleCol).2.1 := by
  obtain ⟨hA, hB, hC, -, -, -⟩ :=
    execute_setup_failure_frame
      { envAllOk with serviceStartErr := some (.simple "start fail") } sampleCol rfl
      (by simp)
  exact ⟨hA, hB, hC⟩

end OtelCollector
